import Mathlib

/-!
Shallow embedding of the `defunct` repository (Python): the `autocache`
disk-memoization decorator (`de.py` / `decorators.py`), the
`watch_for` / `watchfor` exception-rewrapping decorator, and the default
text serializer (`utils.py`).  File contents are modeled as lists of
characters; the file system as a map from path to optional contents;
Python exceptions as a value carrying a class tag and a message.
-/

/-- The Python exception classes that appear in (or are relevant to) the
repository: the built-in hierarchy fragment used by `autocache` and
`watchfor` (`FileNotFoundError`, `TypeError`, `ValueError`, ...). -/
inductive ExcClass where
  | baseException
  | exception
  | arithmeticError
  | zeroDivisionError
  | typeError
  | valueError
  | lookupError
  | keyError
  | stopIteration
  | osError
  | fileNotFoundError
  | permissionError
deriving DecidableEq, Repr

/-- The ancestors of an exception class in Python's built-in exception
hierarchy (reflexive: every class is listed among its own ancestors),
mirroring the standard-library class tree the repository relies on. -/
def ExcClass.ancestors : ExcClass → List ExcClass
  | .baseException => [.baseException]
  | .exception => [.exception, .baseException]
  | .arithmeticError => [.arithmeticError, .exception, .baseException]
  | .zeroDivisionError => [.zeroDivisionError, .arithmeticError, .exception, .baseException]
  | .typeError => [.typeError, .exception, .baseException]
  | .valueError => [.valueError, .exception, .baseException]
  | .lookupError => [.lookupError, .exception, .baseException]
  | .keyError => [.keyError, .lookupError, .exception, .baseException]
  | .stopIteration => [.stopIteration, .exception, .baseException]
  | .osError => [.osError, .exception, .baseException]
  | .fileNotFoundError => [.fileNotFoundError, .osError, .exception, .baseException]
  | .permissionError => [.permissionError, .osError, .exception, .baseException]

/-- Python's `issubclass(a, b)`: `b` occurs among the ancestors of `a`. -/
def issubclass (a b : ExcClass) : Bool :=
  a.ancestors.contains b

/-- A Python exception instance: its runtime class (`type(sig)`) and its
message (`str(sig)`). -/
structure PyExc where
  cls : ExcClass
  msg : String
deriving DecidableEq, Repr

/-- Outcome of evaluating a Python expression: a value, or a raised
exception. -/
inductive PyResult (α : Type) where
  | ok (v : α)
  | exc (e : PyExc)
deriving DecidableEq, Repr

/-- Models `operator.is_` applied to two exception classes; in CPython
distinct builtin classes are distinct objects, so identity coincides with
equality of class tags. -/
def op_is (a b : ExcClass) : Bool := a == b

/-- Models `funcs.rpartial` / `funct.rpartial` in the one-fixed-argument
case used by `watch_for`: fix the rightmost positional argument. -/
def rpartial {α β γ : Type} (func : α → β → γ) (arg : β) : α → γ :=
  fun a => func a arg

/-- Models Python's `next(filter(p, xs))`: the first element of `xs`
satisfying `p`, or `none` when the filtered iterator is exhausted (in
which case `next` raises `StopIteration`). -/
def nextFilter {α : Type} (p : α → Bool) (xs : List α) : Option α :=
  (xs.filter p).head?

/-- The call-time behavior of `watch_for(*signals)` (`decorators.py`,
identical to `watchfor` in `de.py`) wrapping a function named `funcName`
whose evaluation on the given arguments is `call`:
`try: return func(...)` / `except(signals) as sig:` (caught when the
runtime class of `sig` is a subclass of some signal) then
`raised = next(filter( rpartial(op.is_, type(sig)), signals))` and
`raise raised("(- name -): " + str(sig))`; a `next` over an empty filter
raises `StopIteration`. -/
def watch_for_wrapper {α : Type} (signals : List ExcClass) (funcName : String)
    (call : PyResult α) : PyResult α :=
  match call with
  | .ok v => .ok v
  | .exc sig =>
    if signals.any (fun s => issubclass sig.cls s) then
      match nextFilter ( rpartial op_is sig.cls) signals with
      | some raised => .exc ⟨raised, "(- " ++ funcName ++ " -): " ++ sig.msg⟩
      | none => .exc ⟨.stopIteration, ""⟩
    else .exc sig

theorem issubclass_refl (c : ExcClass) : issubclass c c = true := by
  cases c <;> rfl

theorem nextFilter_eq_find {α : Type} (p : α → Bool) (xs : List α) :
    nextFilter p xs = xs.find? p := by
  induction xs with
  | nil => rfl
  | cons a l ih =>
    unfold nextFilter at *
    cases h : p a with
    | true => simp [List.filter_cons, List.find?_cons, h]
    | false => simp [List.filter_cons, List.find?_cons, h, ih]

/-- Contents of a file, modeled as a list of characters. -/
abbrev Content := List Char

/-- The file system: a map from path to the contents of the file there,
`none` when no file exists at the path. -/
abbrev FS := String → Option Content

/-- Functional update of the file system: after `FS.write fs p c` the
path `p` holds contents `c` and every other path is unchanged. -/
def FS.write (fs : FS) (p : String) (c : Content) : FS :=
  fun q => if q == p then some c else fs q

/-- Models the builtin `open(path, 'r' + read_as)` used by the
`autocache` wrapper with the default `opener`: returns the stream
contents when the file exists, and raises `FileNotFoundError` when it
does not. -/
def pyOpenRead (fs : FS) (p : String) : PyResult Content :=
  match fs p with
  | some c => .ok c
  | none => .exc ⟨.fileNotFoundError, p⟩

/-- Models the builtin `open(path, 'w' + write_as)` used by the
`autocache` wrapper with the default `opener`: truncates (or creates)
the file at the path and never fails. -/
def pyOpenWrite (fs : FS) (p : String) : PyResult FS :=
  .ok (FS.write fs p [])

/-- Result of one call of the `autocache` wrapper: the returned value or
raised exception, the file system after the call, and how many times the
wrapped `handler` was invoked during the call. -/
structure CallResult (α : Type) where
  result : PyResult α
  fs : FS
  handlerCalls : Nat

/-- The call-time behavior of the wrapper produced by
`autocache(loader, dumper, opener, ...)` in `de.py` / `decorators.py`
(both files define it identically), for one call on a file system `fs`
with keyword arguments `cache_to` and `overwrite`:
`try:` when `overwrite` holds raise `FileNotFoundError`, else open
`cache_to` for reading and return `loader(stream)`;
`except FileNotFoundError:` (which catches subclass instances) compute
`out = handler(*args, **kwargs)`, open `cache_to` for writing
(truncating) and run `dumper(out, stream)`, then `return out`.
The `opener` is a parameter in the source, so reading and writing are
parameters `openRead` / `openWrite` here; the deterministic wrapped
function is `handler`, invoked via `handler ()`. Any exception raised
inside the `except` block propagates, there being no enclosing handler. -/
def autocache_wrapper {α : Type}
    (openRead : FS → String → PyResult Content)
    (openWrite : FS → String → PyResult FS)
    (loader : Content → PyResult α)
    (dumper : α → PyResult Content)
    (handler : Unit → PyResult α)
    (fs : FS) (cache_to : String) (overwrite : Bool) : CallResult α :=
  match (if overwrite then PyResult.exc ⟨.fileNotFoundError, ""⟩
         else match openRead fs cache_to with
              | .exc e => .exc e
              | .ok contents => loader contents) with
  | .ok v => ⟨.ok v, fs, 0⟩
  | .exc e =>
    if issubclass e.cls .fileNotFoundError then
      match handler () with
      | .exc he => ⟨.exc he, fs, 1⟩
      | .ok out =>
        match openWrite fs cache_to with
        | .exc we => ⟨.exc we, fs, 1⟩
        | .ok fs1 =>
          match dumper out with
          | .exc de => ⟨.exc de, fs1, 1⟩
          | .ok c => ⟨.ok out, FS.write fs1 cache_to c, 1⟩
    else ⟨.exc e, fs, 0⟩

/-- The decoration-time validation performed by `autocache(...)`'s inner
`decorator(handler)` before any wrapper is produced: first
`TypeError("bad load, dump, open, or handle routines (not callable)")`
unless `loader`, `dumper`, `opener` and `handler` are all callable, then
`ValueError` (bad read/write modes) unless `read_as` and `write_as` are
both in the set of the two mode flags `"b"` and `"t"`.  Callability of
each argument is carried as a boolean; `.ok ()` means validation passed
and the wrapper was produced — on `.exc` no wrapper exists and the
handler body can never run. -/
def autocache_decorate (loaderCallable dumperCallable openerCallable handlerCallable : Bool)
    (read_as write_as : String) : PyResult Unit :=
  if !(loaderCallable && dumperCallable && openerCallable && handlerCallable) then
    .exc ⟨.typeError, "bad load, dump, open, or handle routines (not callable)"⟩
  else if !((read_as == "b" || read_as == "t") && (write_as == "b" || write_as == "t")) then
    .exc ⟨.valueError, "bad read/write modes (should be b or t)"⟩
  else .ok ()

/-- Models `utils.text_dumper(output_text, dump_station)`: writes the
given list of strings to the stream with `writelines`, which concatenates
them verbatim (no separators added) after whatever the stream already
holds. -/
def text_dumper (output_text : List Content) (dump_station : Content) : Content :=
  dump_station ++ output_text.flatten

/-- Python's `readlines` line splitting: cut after every newline
character, keeping the terminators; a trailing fragment without a
newline is kept as a final element; the empty stream yields no lines. -/
def pySplitLines : List Char → List (List Char)
  | [] => []
  | c :: rest =>
    match pySplitLines rest with
    | [] => [[c]]
    | l :: ls => if c = '\n' then [c] :: l :: ls else (c :: l) :: ls

/-- Models `utils.text_loader(load_station)`: `load_station.readlines()`. -/
def text_loader (load_station : Content) : List Content :=
  pySplitLines load_station

/-- A single text line as `readlines` can produce it: nonempty, with no
newline character before its last position (the last character may or
may not be a newline). -/
def isLine (l : List Char) : Bool :=
  !l.isEmpty && l.dropLast.all (fun c => c != '\n')

/-- A list of text lines as `readlines` can produce it: every element is
a line, and every element except possibly the last ends in a newline. -/
def isLineList : List (List Char) → Bool
  | [] => true
  | l :: ls => isLine l && (ls.isEmpty || l.getLast? == some '\n') && isLineList ls

theorem find_is_self (signals : List ExcClass) (c : ExcClass) (h : c ∈ signals) :
    signals.find? ( rpartial op_is c) = some c := by
  cases hf : signals.find? ( rpartial op_is c) with
  | none =>
    exfalso
    have hn := List.find?_eq_none.mp hf c h
    simp [ rpartial, op_is] at hn
  | some x =>
    have hx := List.find?_some hf
    simp [ rpartial, op_is] at hx
    subst hx
    rfl

/-- C2: for `watch_for(W)` wrapping `f`, when `f` raises an exception
whose runtime class is a member of the whitelist `W`, the wrapper raises
a new exception of that same class whose message is exactly
`"(- <f name> -): <original message>"`, in place of the original. -/
theorem watchfor_whitelisted_rewrap {α : Type} (signals : List ExcClass) (name : String)
    (sig : PyExc) (h : sig.cls ∈ signals) :
    watch_for_wrapper signals name (PyResult.exc sig : PyResult α) =
      PyResult.exc ⟨sig.cls, "(- " ++ name ++ " -): " ++ sig.msg⟩ := by
  have hany : signals.any (fun s => issubclass sig.cls s) = true :=
    List.any_eq_true.mpr ⟨sig.cls, h, issubclass_refl _⟩
  simp [watch_for_wrapper, hany, nextFilter_eq_find, find_is_self signals sig.cls h]

theorem watchfor_whitelisted_rewrap_witness :
    watch_for_wrapper [ExcClass.zeroDivisionError, ExcClass.typeError] "average"
      (PyResult.exc ⟨ExcClass.zeroDivisionError, "division by zero"⟩ : PyResult Nat) =
      PyResult.exc
        ⟨ExcClass.zeroDivisionError, "(- " ++ "average" ++ " -): " ++ "division by zero"⟩ :=
  watchfor_whitelisted_rewrap _ _ _ (by decide)

/-- C4 counterexample: `FileNotFoundError` is not a member of the
whitelist `[OSError]`, yet the wrapper does not propagate the original
exception unchanged (the `except(signals)` clause catches the subclass
instance and the identity search then fails). -/
theorem watchfor_nonmember_not_propagated_cex :
    ExcClass.fileNotFoundError ∉ [ExcClass.osError] ∧
    watch_for_wrapper [ExcClass.osError] "reader"
      (PyResult.exc ⟨ExcClass.fileNotFoundError, "boom"⟩ : PyResult Nat) ≠
      PyResult.exc ⟨ExcClass.fileNotFoundError, "boom"⟩ := by
  decide

/-- C4 (amended): for `watch_for(W)` wrapping `f`, when `f` raises an
exception whose runtime class is not a subclass of any member of `W`
(in particular it is not in `W`), the wrapper propagates the original
exception unchanged: same class, same message. -/
theorem watchfor_unwatched_propagates {α : Type} (signals : List ExcClass) (name : String)
    (sig : PyExc) (h : ∀ s ∈ signals, issubclass sig.cls s = false) :
    watch_for_wrapper signals name (PyResult.exc sig : PyResult α) = PyResult.exc sig := by
  have hany : signals.any (fun s => issubclass sig.cls s) = false := by
    rw [List.any_eq_false]
    intro s hs
    simp [h s hs]
  simp [watch_for_wrapper, hany]

theorem watchfor_unwatched_propagates_witness :
    watch_for_wrapper [ExcClass.zeroDivisionError, ExcClass.typeError] "average"
      (PyResult.exc ⟨ExcClass.keyError, "missing"⟩ : PyResult Nat) =
      PyResult.exc ⟨ExcClass.keyError, "missing"⟩ :=
  watchfor_unwatched_propagates _ _ _ (by decide)

/-- C10: for `watch_for(W)` wrapping `f`, when `f` raises an exception
whose runtime class is a strict subclass of some member of `W` but is
not itself a member of `W`, the wrapper neither propagates the original
nor re-raises a whitelisted class: the call raises `StopIteration`,
because `next` over the identity-filtered whitelist finds no match. -/
theorem watchfor_strict_subclass_stopiteration {α : Type} (signals : List ExcClass)
    (name : String) (sig : PyExc) (hnot : sig.cls ∉ signals)
    (hsub : ∃ s ∈ signals, issubclass sig.cls s = true) :
    watch_for_wrapper signals name (PyResult.exc sig : PyResult α) =
      PyResult.exc ⟨ExcClass.stopIteration, ""⟩ := by
  obtain ⟨s, hs, hsb⟩ := hsub
  have hany : signals.any (fun t => issubclass sig.cls t) = true :=
    List.any_eq_true.mpr ⟨s, hs, hsb⟩
  have hfind : signals.find? ( rpartial op_is sig.cls) = none := by
    rw [List.find?_eq_none]
    intro x hx
    simp [ rpartial, op_is]
    intro hxx
    exact hnot (hxx ▸ hx)
  simp [watch_for_wrapper, hany, nextFilter_eq_find, hfind]

theorem watchfor_strict_subclass_stopiteration_witness :
    watch_for_wrapper [ExcClass.osError] "open_cfg"
      (PyResult.exc ⟨ExcClass.permissionError, "denied"⟩ : PyResult Nat) =
      PyResult.exc ⟨ExcClass.stopIteration, ""⟩ :=
  watchfor_strict_subclass_stopiteration _ _ _ (by decide)
    ⟨ExcClass.osError, by decide, by decide⟩

theorem FS.write_read (fs : FS) (p : String) (c : Content) : FS.write fs p c p = some c := by
  simp [FS.write]

/-- C9: on a call with `overwrite = False` where the file at `cache_to`
exists and loading succeeds, the `autocache` wrapper returns the loaded
value, leaves the file system (hence the artifact) unchanged, and never
invokes the wrapped function; the artifact is written only on a cache
miss or under `overwrite = True`. -/
theorem autocache_hit_preserves_fs {α : Type}
    (openWrite : FS → String → PyResult FS)
    (loader : Content → PyResult α) (dumper : α → PyResult Content)
    (handler : Unit → PyResult α) (fs : FS) (P : String) (c : Content) (v : α)
    (hfile : fs P = some c) (hload : loader c = PyResult.ok v) :
    autocache_wrapper pyOpenRead openWrite loader dumper handler fs P false =
      ⟨PyResult.ok v, fs, 0⟩ := by
  simp [autocache_wrapper, pyOpenRead, hfile, hload]

theorem autocache_hit_preserves_fs_witness :
    autocache_wrapper pyOpenRead pyOpenWrite
        (fun c => PyResult.ok (text_loader c)) (fun v => PyResult.ok (text_dumper v []))
        (fun _ => PyResult.ok [['n', 'o', '\n']])
        (fun q => if q == "c.txt" then some ['h', 'i'] else none) "c.txt" false =
      ⟨PyResult.ok [['h', 'i']], (fun q => if q == "c.txt" then some ['h', 'i'] else none), 0⟩ :=
  autocache_hit_preserves_fs _ _ _ _ _ _ _ _ rfl (by decide)

/-- C3: a call with `overwrite = True` always invokes the wrapped
function (exactly once), regardless of what the file system holds at
`cache_to`; it returns the freshly computed value and the file at
`cache_to` afterwards holds exactly what the dumper produced from that
value. -/
theorem autocache_overwrite_recomputes {α : Type}
    (loader : Content → PyResult α) (dumper : α → PyResult Content)
    (v : α) (c : Content) (fs : FS) (P : String)
    (hdump : dumper v = PyResult.ok c) :
    autocache_wrapper pyOpenRead pyOpenWrite loader dumper (fun _ => PyResult.ok v) fs P true =
      ⟨PyResult.ok v, FS.write (FS.write fs P []) P c, 1⟩ ∧
    FS.write (FS.write fs P []) P c P = some c := by
  constructor
  · simp [autocache_wrapper, pyOpenWrite, hdump, issubclass_refl]
  · exact FS.write_read _ _ _

theorem autocache_overwrite_recomputes_witness :
    autocache_wrapper pyOpenRead pyOpenWrite
        (fun _ => PyResult.ok (7 : Nat)) (fun _ => PyResult.ok ['z'])
        (fun _ => PyResult.ok (7 : Nat))
        (fun q => if q == "p.txt" then some ['x'] else none) "p.txt" true =
      ⟨PyResult.ok 7,
        FS.write (FS.write (fun q => if q == "p.txt" then some ['x'] else none) "p.txt" [])
          "p.txt" ['z'], 1⟩ ∧
    FS.write (FS.write (fun q => if q == "p.txt" then some ['x'] else none) "p.txt" [])
      "p.txt" ['z'] "p.txt" = some ['z'] :=
  autocache_overwrite_recomputes _ _ 7 _ _ _ rfl

/-- C1: starting from a file system with no file at `cache_to`, a first
call of the `autocache` wrapper (with `overwrite = False`, a
deterministic wrapped function returning `v`, and a loader/dumper pair
that round-trips `v`) computes `v`, invokes the wrapped function exactly
once and caches the dumped content; a second call with the same
`cache_to` on the resulting file system returns the same value `v` and
invokes the wrapped function zero times. -/
theorem autocache_second_call_cached {α : Type}
    (loader : Content → PyResult α) (dumper : α → PyResult Content)
    (v : α) (c : Content) (fs : FS) (P : String)
    (hmiss : fs P = none)
    (hdump : dumper v = PyResult.ok c)
    (hload : loader c = PyResult.ok v) :
    autocache_wrapper pyOpenRead pyOpenWrite loader dumper (fun _ => PyResult.ok v) fs P false =
      ⟨PyResult.ok v, FS.write (FS.write fs P []) P c, 1⟩ ∧
    autocache_wrapper pyOpenRead pyOpenWrite loader dumper (fun _ => PyResult.ok v)
        (FS.write (FS.write fs P []) P c) P false =
      ⟨PyResult.ok v, FS.write (FS.write fs P []) P c, 0⟩ := by
  constructor
  · simp [autocache_wrapper, pyOpenRead, pyOpenWrite, hmiss, hdump, issubclass_refl]
  · exact autocache_hit_preserves_fs _ _ _ _ _ _ _ _ (FS.write_read _ _ _) hload

theorem autocache_second_call_cached_witness :
    autocache_wrapper pyOpenRead pyOpenWrite
        (fun c => PyResult.ok (text_loader c)) (fun v => PyResult.ok (text_dumper v []))
        (fun _ => PyResult.ok [['o', 'k', '\n']]) (fun _ => none) "cached.txt" false =
      ⟨PyResult.ok [['o', 'k', '\n']],
        FS.write (FS.write (fun _ => none) "cached.txt" []) "cached.txt" ['o', 'k', '\n'], 1⟩ ∧
    autocache_wrapper pyOpenRead pyOpenWrite
        (fun c => PyResult.ok (text_loader c)) (fun v => PyResult.ok (text_dumper v []))
        (fun _ => PyResult.ok [['o', 'k', '\n']])
        (FS.write (FS.write (fun _ => none) "cached.txt" []) "cached.txt" ['o', 'k', '\n'])
        "cached.txt" false =
      ⟨PyResult.ok [['o', 'k', '\n']],
        FS.write (FS.write (fun _ => none) "cached.txt" []) "cached.txt" ['o', 'k', '\n'], 0⟩ :=
  autocache_second_call_cached _ _ _ _ _ _ rfl (by decide) (by decide)

/-- C5: in the `autocache` wrapper only a `FileNotFoundError` is
intercepted (triggering computation of the wrapped function); stated
for an arbitrary `opener`: an error other than `FileNotFoundError`
raised while opening the cache for reading, or by the loader, propagates
unchanged with the wrapped function never invoked; a `FileNotFoundError`
while opening for reading is handled by invoking the wrapped function;
and an error raised by the wrapped function, by opening for writing, or
by the dumper on the miss path propagates unchanged to the caller. -/
theorem autocache_only_fnf_intercepted {α : Type}
    (openRead : FS → String → PyResult Content) (openWrite : FS → String → PyResult FS)
    (loader : Content → PyResult α) (dumper : α → PyResult Content)
    (handler : Unit → PyResult α) (fs : FS) (P : String) :
    (∀ e, openRead fs P = PyResult.exc e →
      issubclass e.cls ExcClass.fileNotFoundError = false →
      autocache_wrapper openRead openWrite loader dumper handler fs P false =
        ⟨PyResult.exc e, fs, 0⟩) ∧
    (∀ s e, openRead fs P = PyResult.ok s → loader s = PyResult.exc e →
      issubclass e.cls ExcClass.fileNotFoundError = false →
      autocache_wrapper openRead openWrite loader dumper handler fs P false =
        ⟨PyResult.exc e, fs, 0⟩) ∧
    (∀ e, openRead fs P = PyResult.exc e →
      issubclass e.cls ExcClass.fileNotFoundError = true →
      (autocache_wrapper openRead openWrite loader dumper handler fs P false).handlerCalls = 1) ∧
    (∀ e, handler () = PyResult.exc e →
      autocache_wrapper openRead openWrite loader dumper handler fs P true =
        ⟨PyResult.exc e, fs, 1⟩) ∧
    (∀ v e, handler () = PyResult.ok v → openWrite fs P = PyResult.exc e →
      autocache_wrapper openRead openWrite loader dumper handler fs P true =
        ⟨PyResult.exc e, fs, 1⟩) ∧
    (∀ v fs1 e, handler () = PyResult.ok v → openWrite fs P = PyResult.ok fs1 →
      dumper v = PyResult.exc e →
      autocache_wrapper openRead openWrite loader dumper handler fs P true =
        ⟨PyResult.exc e, fs1, 1⟩) := by
  refine ⟨?_, ?_, ?_, ?_, ?_, ?_⟩
  · intro e h1 h2
    simp [autocache_wrapper, h1, h2]
  · intro s e h1 h2 h3
    simp [autocache_wrapper, h1, h2, h3]
  · intro e h1 h2
    cases hh : handler () with
    | exc he => simp [autocache_wrapper, h1, h2, hh]
    | ok out =>
      cases hw : openWrite fs P with
      | exc we => simp [autocache_wrapper, h1, h2, hh, hw]
      | ok fs1 =>
        cases hd : dumper out with
        | exc de => simp [autocache_wrapper, h1, h2, hh, hw, hd]
        | ok c => simp [autocache_wrapper, h1, h2, hh, hw, hd]
  · intro e h1
    simp [autocache_wrapper, issubclass_refl, h1]
  · intro v e h1 h2
    simp [autocache_wrapper, issubclass_refl, h1, h2]
  · intro v fs1 e h1 h2 h3
    simp [autocache_wrapper, issubclass_refl, h1, h2, h3]

theorem autocache_only_fnf_intercepted_witness :
    autocache_wrapper (fun _ _ => PyResult.exc ⟨ExcClass.permissionError, "denied"⟩) pyOpenWrite
        (fun _ => PyResult.ok (0 : Nat)) (fun _ => PyResult.ok []) (fun _ => PyResult.ok (0 : Nat))
        (fun _ => some ['x']) "p.txt" false =
      ⟨PyResult.exc ⟨ExcClass.permissionError, "denied"⟩, (fun _ => some ['x']), 0⟩ :=
  (autocache_only_fnf_intercepted _ _ _ _ _ _ _).1 _ rfl (by decide)

/-- C6: decorating with a read or write mode outside the set of the two
allowed mode flags makes `autocache`'s decorator raise a configuration
error at decoration time (before any wrapping occurs); when the four
routine arguments are callable that error is the mode `ValueError`. -/
theorem autocache_bad_mode_config_error (lc dc oc hc : Bool) (rm wm : String)
    (h : ((rm == "b" || rm == "t") && (wm == "b" || wm == "t")) = false) :
    (∃ e : PyExc, autocache_decorate lc dc oc hc rm wm = PyResult.exc e) ∧
    ((lc && dc && oc && hc) = true →
      autocache_decorate lc dc oc hc rm wm =
        PyResult.exc ⟨ExcClass.valueError, "bad read/write modes (should be b or t)"⟩) := by
  constructor
  · cases hcall : (lc && dc && oc && hc) with
    | false =>
      refine ⟨⟨ExcClass.typeError, "bad load, dump, open, or handle routines (not callable)"⟩, ?_⟩
      simp [autocache_decorate, hcall]
    | true =>
      refine ⟨⟨ExcClass.valueError, "bad read/write modes (should be b or t)"⟩, ?_⟩
      simp [autocache_decorate, hcall, h]
  · intro hcall
    simp [autocache_decorate, hcall, h]

theorem autocache_bad_mode_config_error_witness :
    autocache_decorate true true true true "x" "t" =
      PyResult.exc ⟨ExcClass.valueError, "bad read/write modes (should be b or t)"⟩ :=
  (autocache_bad_mode_config_error true true true true "x" "t" (by decide)).2 (by decide)

/-- C7: decorating with a non-callable loader (or dumper, opener, or
handler) makes `autocache`'s decorator raise the callability `TypeError`
at decoration time, so no wrapper is produced and the wrapped function
is never called. -/
theorem autocache_noncallable_config_error (lc dc oc hc : Bool) (rm wm : String)
    (h : (lc && dc && oc && hc) = false) :
    autocache_decorate lc dc oc hc rm wm =
      PyResult.exc
        ⟨ExcClass.typeError, "bad load, dump, open, or handle routines (not callable)"⟩ := by
  simp [autocache_decorate, h]

theorem autocache_noncallable_config_error_witness :
    autocache_decorate false true true true "t" "t" =
      PyResult.exc
        ⟨ExcClass.typeError, "bad load, dump, open, or handle routines (not callable)"⟩ :=
  autocache_noncallable_config_error false true true true "t" "t" (by decide)


theorem pySplitLines_cons (c : Char) (rest : List Char) :
    pySplitLines (c :: rest) =
      match pySplitLines rest with
      | [] => [[c]]
      | l :: ls => if c = '\n' then [c] :: l :: ls else (c :: l) :: ls := rfl

theorem pySplitLines_newline (m rest : List Char) (hm : ∀ c ∈ m, c ≠ '\n') :
    pySplitLines (m ++ '\n' :: rest) = (m ++ ['\n']) :: pySplitLines rest := by
  induction m with
  | nil =>
    rw [List.nil_append, pySplitLines_cons]
    cases h : pySplitLines rest with
    | nil => simp
    | cons l ls => simp
  | cons c m ih =>
    have hc : c ≠ '\n' := hm c (by simp)
    have hm2 : ∀ d ∈ m, d ≠ '\n' := fun d hd => hm d (by simp [hd])
    rw [List.cons_append, pySplitLines_cons, ih hm2]
    simp [hc]

theorem pySplitLines_fragment (f : List Char) (hne : f ≠ []) (hf : ∀ c ∈ f, c ≠ '\n') :
    pySplitLines f = [f] := by
  induction f with
  | nil => exact absurd rfl hne
  | cons c f ih =>
    cases f with
    | nil => rfl
    | cons d t =>
      have hrec : pySplitLines (d :: t) = [d :: t] :=
        ih (by simp) (fun x hx => hf x (by simp [hx]))
      rw [pySplitLines_cons, hrec]
      simp [hf c (by simp)]

/-- C8: for every value that is already a list of text lines (each line
nonempty, containing a newline at most as its final character, and every
line except possibly the last newline-terminated), loading back what the
default text dumper wrote — `text_loader` applied to the stream contents
produced by `text_dumper` on a fresh stream — yields the original list. -/
theorem text_roundtrip_on_line_lists (v : List Content) (h : isLineList v = true) :
    text_loader (text_dumper v []) = v := by
  simp only [text_loader, text_dumper, List.nil_append]
  induction v with
  | nil => rfl
  | cons l ls ih =>
    simp only [isLineList, Bool.and_eq_true] at h
    obtain ⟨⟨hline, hterm⟩, hrest⟩ := h
    simp only [isLine, Bool.and_eq_true, List.all_eq_true, Bool.not_eq_true',
      List.isEmpty_eq_false, bne_iff_ne] at hline
    obtain ⟨hne, hdrop⟩ := hline
    rcases List.eq_nil_or_concat l with hl | ⟨m, a, hl⟩
    · exact absurd hl hne
    rw [List.concat_eq_append] at hl
    subst hl
    have hmm : ∀ c ∈ m, c ≠ '\n' := by
      intro c hc
      refine hdrop c ?_
      simp [List.dropLast_concat]
      exact hc
    have hih := ih hrest
    simp only [List.isEmpty_iff, List.getLast?_concat, Option.some.injEq, beq_iff_eq,
      Bool.or_eq_true, decide_eq_true_eq] at hterm
    rcases hterm with rfl | rfl
    · simp only [List.flatten_cons, List.flatten_nil, List.append_nil]
      by_cases ha : a = '\n'
      · subst ha
        simpa using pySplitLines_newline m [] hmm
      · refine pySplitLines_fragment _ hne ?_
        intro c hc
        rcases List.mem_append.mp hc with hcm | hca
        · exact hmm c hcm
        · simp at hca
          subst hca
          exact ha
    · simp only [List.flatten_cons]
      have hassoc : (m ++ ['\n']) ++ List.flatten ls = m ++ '\n' :: List.flatten ls := by
        simp
      rw [hassoc, pySplitLines_newline m _ hmm, hih]

theorem text_roundtrip_on_line_lists_witness :
    text_loader (text_dumper [['a', '\n'], ['b', 'c']] []) = [['a', '\n'], ['b', 'c']] :=
  text_roundtrip_on_line_lists _ (by decide)
